import Mathlib

/-!
# Verification of `src/backend/process_addresses.py` (dc-bar-mapper)

Shallow embedding of the address-resolution pipeline: bounds validation,
the two-tier resolver (Places text search with details lookup, then plain
geocoding as fallback), sequential id assignment, append/overwrite merging
of the dataset, and the failure-file bookkeeping.

Python floats are modelled as rationals (every constant appearing in the
program — 38.5, 39.5, -77.5, -76.5 — is exactly representable in binary
floating point, so the order comparisons coincide). The Google Maps client
is modelled as a record of response maps: `placesSearch` sends a query to
the place id of the top search result (absent on an API error, a non-OK
status, or an empty result list), `placeDetails` sends a place id to the
details payload (absent on a non-OK status or an error), and `geocode`
sends a query to the first geocoding result (absent on an error or an
empty list). File effects are modelled as explicit state: the dataset file
as an optional parsed record list, the failure file as an optional line
list.
-/

namespace DcBarMapper

/-- DC metro bound, from `DC_LAT_MIN, DC_LAT_MAX = 38.5, 39.5`. Written
with `mkRat` so that the kernel can evaluate comparisons; the equality
with the source's decimal literal is proved in `DC_LAT_MIN_eq`. -/
def DC_LAT_MIN : ℚ := mkRat 385 10
/-- DC metro bound (`39.5`, see `DC_LAT_MAX_eq`). -/
def DC_LAT_MAX : ℚ := mkRat 395 10
/-- DC metro bound, from `DC_LNG_MIN, DC_LNG_MAX = -77.5, -76.5`
(see `DC_LNG_MIN_eq`). -/
def DC_LNG_MIN : ℚ := mkRat (-775) 10
/-- DC metro bound (`-76.5`, see `DC_LNG_MAX_eq`). -/
def DC_LNG_MAX : ℚ := mkRat (-765) 10

/-- Embedding of `validate_dc_coordinates(lat, lng, address)`: returns
`False` (after printing a warning that mentions `address`) when the
coordinates fall outside the fixed box, otherwise `True`. -/
def validate_dc_coordinates (lat lng : ℚ) (address : String) : Bool :=
  if ¬(DC_LAT_MIN ≤ lat ∧ lat ≤ DC_LAT_MAX ∧ DC_LNG_MIN ≤ lng ∧ lng ≤ DC_LNG_MAX) then
    false
  else
    let _ := address
    true

/-- Test whether `sub` occurs at the head of `s` (helper for the substring check made by
Python's `in` operator). -/
def headMatches : List Char → List Char → Bool
  | [], _ => true
  | _ :: _, [] => false
  | a :: as, b :: bs => a = b && headMatches as bs

/-- Test whether `sub` occurs somewhere in `s`, as Python's `sub in s`. -/
def containsChars (sub : List Char) : List Char → Bool
  | [] => headMatches sub []
  | b :: bs => headMatches sub (b :: bs) || containsChars sub bs

/-- Python check `'washington' in raw_address.lower() or 'dc' in raw_address.lower()`:
the query already mentions the target city/metro. -/
def mentionsDc (raw_address : String) : Bool :=
  let low := raw_address.data.map Char.toLower
  containsChars "washington".data low || containsChars "dc".data low

/-- The query actually sent to the API: the raw text, with
`", Washington DC"` appended when the text does not already mention the
target (shared by `find_place_by_name` and `geocode_address_fallback`). -/
def searchQuery (raw_address : String) : String :=
  if mentionsDc raw_address then raw_address
  else raw_address ++ ", Washington DC"

/-- Payload extracted from a successful `gmaps.place` details lookup. -/
structure PlaceDetails where
  name : String
  formatted_address : String
  lat : ℚ
  lng : ℚ
  deriving DecidableEq, Repr

/-- Payload extracted from the first result of `gmaps.geocode`. -/
structure GeocodeResult where
  formatted_address : String
  lat : ℚ
  lng : ℚ
  deriving DecidableEq, Repr

/-- The Google Maps client, as the three response maps the pipeline
consumes. `none` stands for every absent case the code folds together:
a raised exception, a non-`OK` status, or an empty result list. -/
structure GMapsClient where
  placesSearch : String → Option String
  placeDetails : String → Option PlaceDetails
  geocode : String → Option GeocodeResult

/-- A resolver result before an id is assigned: the dict
`{name, address, lat, lng, visible}` built by the two resolvers. -/
structure GeoResult where
  name : String
  address : String
  lat : ℚ
  lng : ℚ
  visible : Bool
  deriving DecidableEq, Repr

/-- A dataset row `{id, name, address, lat, lng, visible}`. -/
structure AddressRecord where
  id : ℕ
  name : String
  address : String
  lat : ℚ
  lng : ℚ
  visible : Bool
  deriving DecidableEq, Repr

/-- Embedding of `result['id'] = next_id`: attach the id to a resolver result. -/
def GeoResult.withId (r : GeoResult) (id : ℕ) : AddressRecord :=
  ⟨id, r.name, r.address, r.lat, r.lng, r.visible⟩

/-- Embedding of `find_place_by_name`: build the search query, take the
top Places result's id, fetch details, and accept the details only when
the coordinates pass bounds validation; every absent or failing stage
yields `none`. -/
def find_place_by_name (gmaps : GMapsClient) (raw_address : String) :
    Option GeoResult :=
  match gmaps.placesSearch (searchQuery raw_address) with
  | none => none
  | some place_id =>
    match gmaps.placeDetails place_id with
    | none => none
    | some result =>
      if validate_dc_coordinates result.lat result.lng raw_address then
        some ⟨result.name, result.formatted_address, result.lat, result.lng, true⟩
      else
        none

/-- Python `raw_address.split(',')[0]`: the text before the first comma (the whole
text when no comma occurs). -/
def takeUntilComma : List Char → List Char
  | [] => []
  | c :: cs => if c = ',' then [] else c :: takeUntilComma cs

/-- Python `str.strip()` whitespace test on the characters the inputs use. -/
def isStripChar (c : Char) : Bool :=
  c = ' ' || c = '\t' || c = '\n' || c = '\r'

/-- Python `str.strip()`: drop leading and trailing whitespace. -/
def pyStrip (s : String) : String :=
  ⟨((s.data.dropWhile isStripChar).reverse.dropWhile isStripChar).reverse⟩

/-- Python `raw_address.split(',')[0].strip()`: the display name the fallback
derives from the raw input. -/
def fallbackName (raw_address : String) : String :=
  pyStrip ⟨takeUntilComma raw_address.data⟩

/-- Embedding of `geocode_address_fallback`: plain geocoding of the search
query; the name comes from the raw input (text before the first comma,
stripped), bounds validation is run only for its warning side effect, and
the first geocoding result is returned regardless of its outcome. -/
def geocode_address_fallback (gmaps : GMapsClient) (raw_address : String) :
    Option GeoResult :=
  match gmaps.geocode (searchQuery raw_address) with
  | none => none
  | some result =>
    let name := fallbackName raw_address
    let _diag := validate_dc_coordinates result.lat result.lng raw_address
    some ⟨name, result.formatted_address, result.lat, result.lng, true⟩

/-- Embedding of `geocode_address`: Places tier first, geocoding fallback
when it yields nothing. -/
def geocode_address (gmaps : GMapsClient) (raw_address : String) :
    Option GeoResult :=
  match find_place_by_name gmaps raw_address with
  | some result => some result
  | none => geocode_address_fallback gmaps raw_address

/-! ### The per-run resolution loop -/

/-- Embedding of the `for i, raw_address in enumerate(raw_addresses, 1)`
loop body: each line is resolved by `geocode_address`; a success receives
the current `next_id` (which is then incremented) and is appended to the
record list, a failure is appended to the failed list and consumes no id. -/
def resolveLoop (gmaps : GMapsClient) :
    List String → ℕ → List AddressRecord × List String
  | [], _ => ([], [])
  | raw_address :: rest, next_id =>
    match geocode_address gmaps raw_address with
    | some result =>
      let step := resolveLoop gmaps rest (next_id + 1)
      (result.withId next_id :: step.1, step.2)
    | none =>
      let step := resolveLoop gmaps rest next_id
      (step.1, raw_address :: step.2)

/-- Embedding of `max_id = max(max_id, int(row['id']))` folded over the rows, starting
from `0`, as `read_existing_addresses` computes it. -/
def maxIdOf (records : List AddressRecord) : ℕ :=
  records.foldl (fun m r => max m r.id) 0

/-- Embedding of `read_existing_addresses(csv_path)`: `([], 0)` when the
file does not exist, otherwise the parsed rows in file order together with
the maximum id seen (`0` when the file has no rows). -/
def read_existing_addresses (csv : Option (List AddressRecord)) :
    List AddressRecord × ℕ :=
  match csv with
  | none => ([], 0)
  | some rows => (rows, maxIdOf rows)

/-- Python `line.startswith('#')`. -/
def startsWithHash (s : String) : Bool :=
  match s.data with
  | '#' :: _ => true
  | _ => false

/-- The raw-address reading loop: each input line is stripped, and empty
lines and comment lines are skipped. -/
def parse_raw_addresses (lines : List String) : List String :=
  (lines.map pyStrip).filter (fun line => !(line = "") && !(startsWithHash line))

/-- The on-disk state the pipeline touches: `addresses.csv` (as its parsed
record list, `none` when the file does not exist) and
`addresses_failed.txt` (as its line list, `none` when absent). -/
structure DiskState where
  csv : Option (List AddressRecord)
  failedFile : Option (List String)
  deriving DecidableEq, Repr

/-- How a `process_addresses` invocation ends: `inputMissing` and
`apiKeyMissing` are the two `sys.exit(1)` paths, `noAddresses` is the
early `return` on an input with no usable lines, `completed` is a full
run. -/
inductive ProcStatus where
  | inputMissing
  | noAddresses
  | apiKeyMissing
  | completed
  deriving DecidableEq, Repr

/-- Result of `process_addresses`: exit status plus the on-disk state it
leaves behind. -/
structure ProcOutput where
  status : ProcStatus
  disk : DiskState
  deriving DecidableEq, Repr

/-- Embedding of `process_addresses(input_file, append_mode)`.

The input file is `none` when missing (first `sys.exit(1)`), otherwise its
line list. `api_key_set` models whether `GOOGLE_MAPS_API_KEY` is set; the
check happens in `get_google_maps_client()`, which runs only after the
empty-input early return. The merge seed is
`([], 1) if not append_mode else read_existing_addresses(csv_path)`
followed by `next_id += 1`. The dataset file is rewritten only when the
final `addresses` list is nonempty; the failure file is rewritten when
`failed` is nonempty and otherwise removed (if present). -/
def process_addresses (gmaps : GMapsClient) (api_key_set : Bool)
    (input_lines : Option (List String)) (disk : DiskState)
    (append_mode : Bool) : ProcOutput :=
  match input_lines with
  | none => ⟨ProcStatus.inputMissing, disk⟩
  | some lines =>
    let raw_addresses := parse_raw_addresses lines
    if raw_addresses = [] then ⟨ProcStatus.noAddresses, disk⟩
    else if api_key_set = false then ⟨ProcStatus.apiKeyMissing, disk⟩
    else
      let init :=
        if append_mode = false then (([] : List AddressRecord), 1)
        else read_existing_addresses disk.csv
      let next_id := init.2 + 1
      let rl := resolveLoop gmaps raw_addresses next_id
      let addresses := init.1 ++ rl.1
      let failed := rl.2
      ⟨ProcStatus.completed,
        ⟨if addresses = [] then disk.csv else some addresses,
         if failed = [] then none else some failed⟩⟩

/-- Observation function on the same loop: the `(addresses, next_id)` pair
at each moment the loop is about to execute `result['id'] = next_id`,
i.e. at each id issuance. -/
def issuanceStates (gmaps : GMapsClient) :
    List String → List AddressRecord → ℕ → List (List AddressRecord × ℕ)
  | [], _, _ => []
  | raw_address :: rest, addresses, next_id =>
    match geocode_address gmaps raw_address with
    | some result =>
      (addresses, next_id) ::
        issuanceStates gmaps rest (addresses ++ [result.withId next_id]) (next_id + 1)
    | none => issuanceStates gmaps rest addresses next_id

/-- The issuance states of a full `process_addresses` run: the merge seed
computed exactly as in `process_addresses`, then the loop observed by
`issuanceStates`. -/
def runIssuanceStates (gmaps : GMapsClient) (lines : List String)
    (disk : DiskState) (append_mode : Bool) : List (List AddressRecord × ℕ) :=
  let raw_addresses := parse_raw_addresses lines
  let init :=
    if append_mode = false then (([] : List AddressRecord), 1)
    else read_existing_addresses disk.csv
  issuanceStates gmaps raw_addresses init.1 (init.2 + 1)

/-! ### Concrete fixtures used by witnesses and counterexamples -/

/-- A client whose Places tier finds nothing and whose geocoder always
returns the same in-bounds result. -/
def geocodeOnlyClient : GMapsClient where
  placesSearch := fun _ => none
  placeDetails := fun _ => none
  geocode := fun _ => some ⟨"1600 Penn Ave NW", 39, -77⟩

/-- A client on which every lookup fails. -/
def failClient : GMapsClient where
  placesSearch := fun _ => none
  placeDetails := fun _ => none
  geocode := fun _ => none

/-- A client whose both tiers answer with out-of-bounds coordinates
(latitude 40 is above `DC_LAT_MAX`). -/
def outOfBoundsClient : GMapsClient where
  placesSearch := fun _ => some "pid-1"
  placeDetails := fun _ => some ⟨"Far Venue", "Far Addr", 40, -77⟩
  geocode := fun _ => some ⟨"Far Addr", 40, -77⟩

/-- A pre-existing dataset row with id 5. -/
def oldRec : AddressRecord := ⟨5, "Old Bar", "Old Addr", 39, -77, true⟩

/-- The record `geocodeOnlyClient` resolution produces for the line
`"Lincoln Memorial"` once id 6 is attached. -/
def lincolnRec6 : AddressRecord :=
  ⟨6, "Lincoln Memorial", "1600 Penn Ave NW", 39, -77, true⟩

/-- The record `geocodeOnlyClient` resolution produces for the line
`"Lincoln Memorial"` once id 2 is attached (overwrite-mode start id). -/
def lincolnRec2 : AddressRecord :=
  ⟨2, "Lincoln Memorial", "1600 Penn Ave NW", 39, -77, true⟩

/-- The resolver result `geocodeOnlyClient` produces for the input
`"123 Fake St, Washington DC"`. -/
def fakeStResult : GeoResult :=
  ⟨"123 Fake St", "1600 Penn Ave NW", 39, -77, true⟩

/-! ## Bridge lemmas: the `mkRat` bound constants equal the source's
decimal literals -/

/-- The constant `DC_LAT_MIN` is the literal `38.5`. -/
theorem DC_LAT_MIN_eq : DC_LAT_MIN = 38.5 := by
  norm_num [DC_LAT_MIN, Rat.mkRat_eq_divInt, Rat.divInt_eq_div]

/-- The constant `DC_LAT_MAX` is the literal `39.5`. -/
theorem DC_LAT_MAX_eq : DC_LAT_MAX = 39.5 := by
  norm_num [DC_LAT_MAX, Rat.mkRat_eq_divInt, Rat.divInt_eq_div]

/-- The constant `DC_LNG_MIN` is the literal `-77.5`. -/
theorem DC_LNG_MIN_eq : DC_LNG_MIN = -77.5 := by
  norm_num [DC_LNG_MIN, Rat.mkRat_eq_divInt, Rat.divInt_eq_div]

/-- The constant `DC_LNG_MAX` is the literal `-76.5`. -/
theorem DC_LNG_MAX_eq : DC_LNG_MAX = -76.5 := by
  norm_num [DC_LNG_MAX, Rat.mkRat_eq_divInt, Rat.divInt_eq_div]

/-! ## C4: bounds validation -/

/-- C4: `validate_dc_coordinates` returns `true` iff
`38.5 ≤ lat ≤ 39.5` and `-77.5 ≤ lng ≤ -76.5` (bounds inclusive); in
particular it is `false` at `(40.0, -77.0)` and `true` at `(38.9, -77.0)`. -/
theorem validate_dc_coordinates_iff_bounds :
    (∀ (lat lng : ℚ) (address : String),
      validate_dc_coordinates lat lng address = true ↔
        (38.5 ≤ lat ∧ lat ≤ 39.5 ∧ -77.5 ≤ lng ∧ lng ≤ -76.5)) ∧
    validate_dc_coordinates 40.0 (-77.0) "a" = false ∧
    validate_dc_coordinates 38.9 (-77.0) "b" = true := by
  have hmain : ∀ (lat lng : ℚ) (address : String),
      validate_dc_coordinates lat lng address = true ↔
        (38.5 ≤ lat ∧ lat ≤ 39.5 ∧ -77.5 ≤ lng ∧ lng ≤ -76.5) := by
    intro lat lng address
    simp only [validate_dc_coordinates, DC_LAT_MIN_eq, DC_LAT_MAX_eq,
      DC_LNG_MIN_eq, DC_LNG_MAX_eq]
    split
    · next h => simp [h]
    · next h => simp [not_not.mp h]
  refine ⟨hmain, ?_, ?_⟩
  · rw [Bool.eq_false_iff]
    intro h
    have hb := (hmain 40.0 (-77.0) "a").mp h
    norm_num at hb
  · exact (hmain 38.9 (-77.0) "b").mpr (by norm_num)

/-! ## Helper lemmas about the resolution loop -/

/-- The failed list the loop produces does not depend on the starting id:
it is precisely the input lines (in input order) on which both resolver
tiers came up empty. -/
theorem resolveLoop_snd_eq_filter (gmaps : GMapsClient) :
    ∀ (raws : List String) (next_id : ℕ),
      (resolveLoop gmaps raws next_id).2 =
        raws.filter (fun raw => (geocode_address gmaps raw).isNone) := by
  intro raws
  induction raws with
  | nil => intro n; rfl
  | cons raw rest ih =>
    intro n
    simp only [resolveLoop]
    cases hg : geocode_address gmaps raw with
    | some result => simp [hg, ih, List.filter_cons]
    | none => simp [hg, ih, List.filter_cons]

/-- Every input line lands in exactly one of the two output lists. -/
theorem resolveLoop_length (gmaps : GMapsClient) :
    ∀ (raws : List String) (next_id : ℕ),
      (resolveLoop gmaps raws next_id).1.length
        + (resolveLoop gmaps raws next_id).2.length = raws.length := by
  intro raws
  induction raws with
  | nil => intro n; rfl
  | cons raw rest ih =>
    intro n
    simp only [resolveLoop]
    cases hg : geocode_address gmaps raw with
    | some result => simp only [List.length_cons]; have := ih (n + 1); omega
    | none => simp only [List.length_cons]; have := ih n; omega

/-- The resolved records receive the consecutive ids
`next_id, next_id + 1, …` in input order. -/
theorem resolveLoop_ids (gmaps : GMapsClient) :
    ∀ (raws : List String) (next_id : ℕ),
      (resolveLoop gmaps raws next_id).1.map AddressRecord.id =
        List.range' next_id (resolveLoop gmaps raws next_id).1.length := by
  intro raws
  induction raws with
  | nil => intro n; rfl
  | cons raw rest ih =>
    intro n
    simp only [resolveLoop]
    cases hg : geocode_address gmaps raw with
    | some result =>
      simp only [List.map_cons, List.length_cons, List.range'_succ]
      exact congrArg _ (ih (n + 1))
    | none => exact ih n

/-- Appending one record pushes the running maximum up by a `max`. -/
theorem maxIdOf_append (records : List AddressRecord) (r : AddressRecord) :
    maxIdOf (records ++ [r]) = max (maxIdOf records) r.id := by
  simp [maxIdOf, List.foldl_append]

/-- Once the merge-state invariant `next_id = maxIdOf addresses + 1`
holds, it holds at every subsequent issuance point of the loop. -/
theorem issuanceStates_invariant (gmaps : GMapsClient) :
    ∀ (raws : List String) (addresses : List AddressRecord) (next_id : ℕ),
      next_id = maxIdOf addresses + 1 →
      ∀ s ∈ issuanceStates gmaps raws addresses next_id,
        s.2 = maxIdOf s.1 + 1 := by
  intro raws
  induction raws with
  | nil => intro addresses next_id _ s hs; simp [issuanceStates] at hs
  | cons raw rest ih =>
    intro addresses next_id h s hs
    simp only [issuanceStates] at hs
    cases hg : geocode_address gmaps raw with
    | some result =>
      rw [hg] at hs
      rcases List.mem_cons.mp hs with rfl | hs
      · exact h
      · refine ih _ _ ?_ s hs
        rw [maxIdOf_append]
        have : (result.withId next_id).id = next_id := rfl
        rw [this, h]
        omega
    | none =>
      rw [hg] at hs
      exact ih addresses next_id h s hs

/-- From the overwrite-mode seed `([], 2)`, every issuance state is either
that seed itself or satisfies the `max + 1` invariant. -/
theorem issuanceStates_from_overwrite_seed (gmaps : GMapsClient) :
    ∀ raws : List String, ∀ s ∈ issuanceStates gmaps raws [] 2,
      (s.1 = [] ∧ s.2 = 2) ∨ s.2 = maxIdOf s.1 + 1 := by
  intro raws
  induction raws with
  | nil => intro s hs; simp [issuanceStates] at hs
  | cons raw rest ih =>
    intro s hs
    simp only [issuanceStates] at hs
    cases hg : geocode_address gmaps raw with
    | some result =>
      rw [hg] at hs
      rcases List.mem_cons.mp hs with rfl | hs
      · exact Or.inl ⟨rfl, rfl⟩
      · refine Or.inr (issuanceStates_invariant gmaps rest _ _ ?_ s hs)
        simp [maxIdOf, GeoResult.withId]
    | none =>
      rw [hg] at hs
      exact ih s hs

/-- Unfolding of `process_addresses` on the path that reaches the main
loop: input present, at least one usable line, API key set. -/
theorem process_addresses_completed (gmaps : GMapsClient) (lines : List String)
    (disk : DiskState) (append_mode : Bool)
    (h : parse_raw_addresses lines ≠ [])
    (init : List AddressRecord × ℕ)
    (hinit : (if append_mode = false then (([] : List AddressRecord), 1)
              else read_existing_addresses disk.csv) = init)
    (rl : List AddressRecord × List String)
    (hrl : resolveLoop gmaps (parse_raw_addresses lines) (init.2 + 1) = rl) :
    process_addresses gmaps true (some lines) disk append_mode =
      ⟨ProcStatus.completed,
        ⟨if init.1 ++ rl.1 = [] then disk.csv else some (init.1 ++ rl.1),
         if rl.2 = [] then none else some rl.2⟩⟩ := by
  subst hinit
  subst hrl
  simp only [process_addresses]
  rw [if_neg h]
  simp

/-! ## C1: append-mode merge -/

/-- C1 (amended): in append mode with an existing dataset of maximum id
`N`, the merged dataset is the existing records verbatim followed by the
`k` newly resolved records, so it has size `len(existing) + k`; the new
records receive the consecutive ids `N + 1, N + 2, …` (renumbering starts
at `max(existingId) + 1`, not `+ 2`), hence every new id is strictly above
`N`. -/
theorem append_mode_merge (gmaps : GMapsClient) (lines : List String)
    (existing : List AddressRecord) (ff : Option (List String))
    (h : parse_raw_addresses lines ≠ [])
    (newRecords : List AddressRecord) (fails : List String)
    (hrl : resolveLoop gmaps (parse_raw_addresses lines) (maxIdOf existing + 1)
            = (newRecords, fails)) :
    (process_addresses gmaps true (some lines) ⟨some existing, ff⟩ true).disk.csv
        = some (existing ++ newRecords) ∧
    (existing ++ newRecords).length = existing.length + newRecords.length ∧
    newRecords.map AddressRecord.id
        = List.range' (maxIdOf existing + 1) newRecords.length ∧
    ∀ r ∈ newRecords, maxIdOf existing < r.id := by
  have hp := process_addresses_completed gmaps lines ⟨some existing, ff⟩ true h
      (existing, maxIdOf existing) (by simp [read_existing_addresses])
      (newRecords, fails) hrl
  have hids : newRecords.map AddressRecord.id
      = List.range' (maxIdOf existing + 1) newRecords.length := by
    have := resolveLoop_ids gmaps (parse_raw_addresses lines) (maxIdOf existing + 1)
    rw [hrl] at this
    exact this
  refine ⟨?_, List.length_append _ _, hids, ?_⟩
  · rw [hp]
    by_cases he : existing ++ newRecords = []
    · rcases List.append_eq_nil.mp he with ⟨h1, h2⟩
      simp [he, h1, h2]
    · simp [he]
  · intro r hr
    have hmem : r.id ∈ newRecords.map AddressRecord.id := List.mem_map_of_mem _ hr
    rw [hids] at hmem
    have := (List.mem_range'_1.mp hmem).1
    omega

/-- Witness for `append_mode_merge` at a concrete run: existing maximum id
5, one resolving line, new record id 6. -/
theorem append_mode_merge_witness :
    (process_addresses geocodeOnlyClient true (some ["Lincoln Memorial"])
        ⟨some [oldRec], none⟩ true).disk.csv = some ([oldRec] ++ [lincolnRec6]) ∧
    maxIdOf [oldRec] < lincolnRec6.id :=
  ⟨(append_mode_merge geocodeOnlyClient ["Lincoln Memorial"] [oldRec] none
      (by decide) [lincolnRec6] [] (by decide)).1,
   (append_mode_merge geocodeOnlyClient ["Lincoln Memorial"] [oldRec] none
      (by decide) [lincolnRec6] [] (by decide)).2.2.2 lincolnRec6 (by decide)⟩

/-- C1 as stated is false: with an existing maximum id of 5 and one newly
resolved entry, the run writes `[id 5, id 6]` — the first new id is
`max + 1 = 6`, not `max(existingId) + 2 = 7`. -/
theorem append_mode_plus_two_counterexample :
    Option.map (List.map AddressRecord.id)
        (process_addresses geocodeOnlyClient true (some ["Lincoln Memorial"])
          ⟨some [oldRec], none⟩ true).disk.csv = some [5, 6] ∧
    maxIdOf [oldRec] + 2 ≠ 6 := by
  exact ⟨by decide, by decide⟩

/-! ## C2: the merge-state invariant at id issuance -/

/-- C2 (amended): in append mode, at every point where an id is about to
be issued, `next_id = maxIdOf addresses + 1` (which is `1` when the loaded
dataset is empty). In overwrite mode the seed skips an id: an issuance
point with empty records has `next_id = 2` rather than `1`; at every other
issuance point the `max + 1` invariant holds. -/
theorem issuance_invariant (gmaps : GMapsClient) (lines : List String) :
    (∀ (csv : Option (List AddressRecord)) (ff : Option (List String)),
      ∀ s ∈ runIssuanceStates gmaps lines ⟨csv, ff⟩ true,
        s.2 = maxIdOf s.1 + 1) ∧
    (∀ disk : DiskState, ∀ s ∈ runIssuanceStates gmaps lines disk false,
      (s.1 = [] ∧ s.2 = 2) ∨ s.2 = maxIdOf s.1 + 1) := by
  constructor
  · intro csv ff s hs
    have hrun : runIssuanceStates gmaps lines ⟨csv, ff⟩ true
        = issuanceStates gmaps (parse_raw_addresses lines)
            (read_existing_addresses csv).1 ((read_existing_addresses csv).2 + 1) := by
      simp [runIssuanceStates]
    rw [hrun] at hs
    refine issuanceStates_invariant gmaps _ _ _ ?_ s hs
    cases csv with
    | none => simp [read_existing_addresses, maxIdOf]
    | some rows => simp [read_existing_addresses]
  · intro disk s hs
    have hrun : runIssuanceStates gmaps lines disk false
        = issuanceStates gmaps (parse_raw_addresses lines) [] 2 := by
      simp [runIssuanceStates]
    rw [hrun] at hs
    exact issuanceStates_from_overwrite_seed gmaps _ s hs

/-- Witness for `issuance_invariant`: in a concrete append run over an
existing dataset of maximum id 5, the single issuance state is
`([oldRec], 6)` and satisfies the invariant. -/
theorem issuance_invariant_witness :
    (([oldRec], 6) : List AddressRecord × ℕ).2
      = maxIdOf (([oldRec], 6) : List AddressRecord × ℕ).1 + 1 :=
  (issuance_invariant geocodeOnlyClient ["Lincoln Memorial"]).1
    (some [oldRec]) none ([oldRec], 6) (by decide)

/-- C2 as stated is false: in an overwrite run the first id is issued with
`records = []` and `next_id = 2`, while the invariant demands
`next_id = 1` when records is empty. -/
theorem issuance_invariant_counterexample :
    runIssuanceStates geocodeOnlyClient ["Lincoln Memorial"] ⟨none, none⟩ false
        = [(([] : List AddressRecord), 2)] ∧
    (2 : ℕ) ≠ maxIdOf [] + 1 := by
  exact ⟨by decide, by decide⟩

/-! ## C3: overwrite mode and the prior dataset -/

/-- C3 (amended): in overwrite mode the run never reads the prior dataset:
whenever at least one entry resolves, the written dataset is exactly the
current run's resolved records (with ids from 2), for every prior on-disk
content; but when no entry resolves, the dataset file is left exactly as
it was rather than being replaced by an empty dataset. -/
theorem overwrite_mode_csv (gmaps : GMapsClient) (lines : List String)
    (disk : DiskState) (h : parse_raw_addresses lines ≠ [])
    (newRecords : List AddressRecord) (fails : List String)
    (hrl : resolveLoop gmaps (parse_raw_addresses lines) 2 = (newRecords, fails)) :
    (newRecords ≠ [] →
      (process_addresses gmaps true (some lines) disk false).disk.csv
        = some newRecords) ∧
    (newRecords = [] →
      (process_addresses gmaps true (some lines) disk false).disk.csv
        = disk.csv) := by
  have hp := process_addresses_completed gmaps lines disk false h
      ([], 1) (by simp) (newRecords, fails) (by simpa using hrl)
  constructor
  · intro hne
    rw [hp]
    simp [hne]
  · intro he
    rw [hp]
    simp [he]

/-- Witness for `overwrite_mode_csv`: a concrete overwrite run on top of a
nonempty prior dataset ends with exactly the one newly resolved record. -/
theorem overwrite_mode_csv_witness :
    (process_addresses geocodeOnlyClient true (some ["Lincoln Memorial"])
        ⟨some [oldRec], some ["stale entry"]⟩ false).disk.csv
      = some [lincolnRec2] :=
  (overwrite_mode_csv geocodeOnlyClient ["Lincoln Memorial"]
      ⟨some [oldRec], some ["stale entry"]⟩ (by decide)
      [lincolnRec2] [] (by decide)).1 (by decide)

/-- C3 as stated is false: in an overwrite run in which every entry fails,
the prior dataset file survives untouched, so the resulting dataset is not
the current run's (empty) resolved record set. -/
theorem overwrite_mode_counterexample :
    (process_addresses failClient true (some ["Nowhere Bar"])
        ⟨some [oldRec], none⟩ false).disk.csv = some [oldRec] ∧
    (resolveLoop failClient (parse_raw_addresses ["Nowhere Bar"]) 2).1 = [] := by
  exact ⟨by decide, by decide⟩

/-! ## C5: the validation asymmetry between the two tiers -/

/-- C5: whenever the venue-search path obtains a details payload whose
coordinates fail bounds validation, it discards it and returns `none`;
whenever the geocode fallback obtains a result whose coordinates fail
bounds validation, it still returns the built record. -/
theorem bounds_validation_asymmetry :
    (∀ (gmaps : GMapsClient) (raw_address place_id : String)
        (details : PlaceDetails),
      gmaps.placesSearch (searchQuery raw_address) = some place_id →
      gmaps.placeDetails place_id = some details →
      validate_dc_coordinates details.lat details.lng raw_address = false →
      find_place_by_name gmaps raw_address = none) ∧
    (∀ (gmaps : GMapsClient) (raw_address : String) (result : GeocodeResult),
      gmaps.geocode (searchQuery raw_address) = some result →
      validate_dc_coordinates result.lat result.lng raw_address = false →
      geocode_address_fallback gmaps raw_address =
        some ⟨fallbackName raw_address, result.formatted_address,
              result.lat, result.lng, true⟩) := by
  constructor
  · intro gmaps raw_address place_id details h1 h2 h3
    simp [find_place_by_name, h1, h2, h3]
  · intro gmaps raw_address result h1 _h2
    simp [geocode_address_fallback, h1]

/-- Witness for `bounds_validation_asymmetry`, on a client whose both
tiers answer with latitude 40 (out of bounds): the venue path discards,
the fallback still returns the record. -/
theorem bounds_validation_asymmetry_witness :
    find_place_by_name outOfBoundsClient "Far Venue" = none ∧
    geocode_address_fallback outOfBoundsClient "Far Venue" =
      some ⟨fallbackName "Far Venue", "Far Addr", 40, -77, true⟩ :=
  ⟨bounds_validation_asymmetry.1 outOfBoundsClient "Far Venue" "pid-1"
      ⟨"Far Venue", "Far Addr", 40, -77⟩ rfl rfl (by decide),
   bounds_validation_asymmetry.2 outOfBoundsClient "Far Venue"
      ⟨"Far Addr", 40, -77⟩ rfl (by decide)⟩

/-! ## C6: the fallback display name -/

/-- C6: whenever the geocode fallback succeeds, the returned record's name
is the raw input's text before the first comma with surrounding whitespace
stripped — a function of the raw input alone, never of the geocode
response. -/
theorem fallback_name_from_input (gmaps : GMapsClient) (raw_address : String)
    (r : GeoResult)
    (h : geocode_address_fallback gmaps raw_address = some r) :
    r.name = fallbackName raw_address := by
  unfold geocode_address_fallback at h
  cases hg : gmaps.geocode (searchQuery raw_address) with
  | none => rw [hg] at h; simp at h
  | some result =>
    rw [hg] at h
    simp only [Option.some.injEq] at h
    rw [← h]

/-- Witness for `fallback_name_from_input`: on input
`"123 Fake St, Washington DC"` the resolved name is `"123 Fake St"`, the
text before the first comma. -/
theorem fallback_name_from_input_witness :
    fakeStResult.name = fallbackName "123 Fake St, Washington DC" ∧
    fallbackName "123 Fake St, Washington DC" = "123 Fake St" :=
  ⟨fallback_name_from_input geocodeOnlyClient "123 Fake St, Washington DC"
      fakeStResult (by decide),
   by decide⟩

/-! ## C7: id assignment within a run -/

/-- C7: within a run, the resolved records' ids are exactly the
consecutive block `start_id, start_id + 1, …` in input order — sequential
from the starting id, pairwise distinct, strictly increasing, and one id
per resolved record (failed entries consume none, no id is reused). -/
theorem run_ids_sequential (gmaps : GMapsClient) (raws : List String)
    (start_id : ℕ) :
    (resolveLoop gmaps raws start_id).1.map AddressRecord.id
        = List.range' start_id (resolveLoop gmaps raws start_id).1.length ∧
    ((resolveLoop gmaps raws start_id).1.map AddressRecord.id).Nodup ∧
    List.Pairwise (· < ·)
      ((resolveLoop gmaps raws start_id).1.map AddressRecord.id) := by
  have hid := resolveLoop_ids gmaps raws start_id
  refine ⟨hid, ?_, ?_⟩
  · rw [hid]
    exact List.nodup_range' _ _ _ (by omega)
  · rw [hid]
    exact List.pairwise_lt_range' _ _ _ (by omega)

/-! ## C8: conservation of input lines -/

/-- C8: every non-empty, non-comment input line of a run ends up in
exactly one of the two outputs, so resolved count plus failed count equals
the processed line count. -/
theorem resolved_plus_failed_eq_input (gmaps : GMapsClient)
    (lines : List String) (start_id : ℕ) :
    (resolveLoop gmaps (parse_raw_addresses lines) start_id).1.length
        + (resolveLoop gmaps (parse_raw_addresses lines) start_id).2.length
      = (parse_raw_addresses lines).length :=
  resolveLoop_length gmaps (parse_raw_addresses lines) start_id

/-! ## C9: the failure file reflects only the current run -/

/-- C9: after a run that reaches the loop, the failure file holds exactly
the run's failed lines in input order when there are any, and is absent
(deleted if it existed) when the run had no failures. -/
theorem failure_file_reflects_run (gmaps : GMapsClient) (lines : List String)
    (disk : DiskState) (append_mode : Bool)
    (h : parse_raw_addresses lines ≠ []) :
    (process_addresses gmaps true (some lines) disk append_mode).disk.failedFile
      = (if (parse_raw_addresses lines).filter
            (fun raw => (geocode_address gmaps raw).isNone) = []
         then none
         else some ((parse_raw_addresses lines).filter
            (fun raw => (geocode_address gmaps raw).isNone))) := by
  have hp := process_addresses_completed gmaps lines disk append_mode h _ rfl _ rfl
  rw [hp]
  simp [resolveLoop_snd_eq_filter]

/-- Witness for `failure_file_reflects_run`: a run with zero failures
deletes the stale failure file left by a previous run. -/
theorem failure_file_reflects_run_witness :
    (process_addresses geocodeOnlyClient true (some ["Lincoln Memorial"])
        ⟨none, some ["stale entry"]⟩ false).disk.failedFile = none :=
  (failure_file_reflects_run geocodeOnlyClient ["Lincoln Memorial"]
      ⟨none, some ["stale entry"]⟩ false (by decide)).trans (by decide)

/-! ## C10: the empty-input early return -/

/-- C10: when the input file exists but yields zero usable lines, the run
returns early with `noAddresses` — whatever the API-key situation is — and
leaves the whole disk state (dataset file and any stale failure file)
untouched. -/
theorem empty_input_early_return (gmaps : GMapsClient) (api_key_set : Bool)
    (lines : List String) (disk : DiskState) (append_mode : Bool)
    (h : parse_raw_addresses lines = []) :
    process_addresses gmaps api_key_set (some lines) disk append_mode
      = ⟨ProcStatus.noAddresses, disk⟩ := by
  simp [process_addresses, h]

/-- Witness for `empty_input_early_return`: blank and comment lines only,
API key missing, stale dataset and failure files — the run ends
`noAddresses` (not `apiKeyMissing`) with the disk untouched. -/
theorem empty_input_early_return_witness :
    process_addresses failClient false (some ["", "   ", "# comment"])
        ⟨some [oldRec], some ["stale entry"]⟩ true
      = ⟨ProcStatus.noAddresses, ⟨some [oldRec], some ["stale entry"]⟩⟩ :=
  empty_input_early_return failClient false ["", "   ", "# comment"]
    ⟨some [oldRec], some ["stale entry"]⟩ true (by decide)

end DcBarMapper
